import Mathlib

/- Shallow embedding of src/Fundamental_Bot.py (class EnhancedGOOGAnalyzer).

   External effects are modelled by an Env value holding the outcome of every
   network fetch the script performs during one run: an Option payload is none
   when the fetch failed (non-200, empty body, timeout or exception) and the
   adapter-accessibility booleans mirror the data_flags entries consulted by
   the fallback logic.  Python floats are modelled as real numbers, Python
   ints as integers.  dict.get(key, d) on a payload is Option.getD; a key that
   may be absent is an Option field.  Print statements, reason strings and
   fields the program stores but never reads back (revision_history,
   historical_earnings, forward-estimate tables, economic indicators) are
   display-only and are not modelled.  Every scoring branch is translated
   from the source, condition for condition. -/

/- The yfinance info payload: one field per key the script reads.  A field is
   none when the key is absent from the payload. -/
structure Info where
  currentPrice : Option ℝ := none
  regularMarketPrice : Option ℝ := none
  dayHigh : Option ℝ := none
  dayLow : Option ℝ := none
  fiftyTwoWeekHigh : Option ℝ := none
  fiftyTwoWeekLow : Option ℝ := none
  averageVolume : Option ℝ := none
  marketCap : Option ℝ := none
  enterpriseValue : Option ℝ := none
  targetMeanPrice : Option ℝ := none
  targetHighPrice : Option ℝ := none
  targetLowPrice : Option ℝ := none
  trailingPE : Option ℝ := none
  forwardPE : Option ℝ := none
  pegRatio : Option ℝ := none
  priceToBook : Option ℝ := none
  priceToSalesTrailing12Months : Option ℝ := none
  enterpriseToRevenue : Option ℝ := none
  enterpriseToEbitda : Option ℝ := none
  priceToCashflow : Option ℝ := none
  bookValue : Option ℝ := none
  revenueGrowth : Option ℝ := none
  earningsGrowth : Option ℝ := none
  earningsQuarterlyGrowth : Option ℝ := none
  revenueQuarterlyGrowth : Option ℝ := none
  forwardEps : Option ℝ := none
  trailingEps : Option ℝ := none
  profitMargins : Option ℝ := none
  operatingMargins : Option ℝ := none
  grossMargins : Option ℝ := none
  ebitdaMargins : Option ℝ := none
  returnOnEquity : Option ℝ := none
  returnOnAssets : Option ℝ := none
  netIncomeToCommon : Option ℝ := none
  totalCash : Option ℝ := none
  totalDebt : Option ℝ := none
  operatingCashflow : Option ℝ := none
  freeCashflow : Option ℝ := none
  debtToEquity : Option ℝ := none
  totalCashPerShare : Option ℝ := none
  currentRatio : Option ℝ := none
  quickRatio : Option ℝ := none
  beta : Option ℝ := none
  sharesOutstanding : Option ℝ := none
  floatShares : Option ℝ := none
  sharesShort : Option ℝ := none
  shortRatio : Option ℝ := none
  shortPercentOfFloat : Option ℝ := none
  heldPercentInstitutions : Option ℝ := none
  heldPercentInsiders : Option ℝ := none
  dividendYield : Option ℝ := none
  dividendRate : Option ℝ := none
  payoutRatio : Option ℝ := none
  exDividendDate : Option ℝ := none
  lastDividendValue : Option ℝ := none
  fiveYearAvgDividendYield : Option ℝ := none
  recommendationMean : Option ℝ := none
  recommendationKey : Option String := none
  numberOfAnalystOpinions : Option ℝ := none

/- One annual record of the FMP income-statement payload (fields the earnings
   CAGR computation reads; calendarYear, revenue and eps are display only). -/
structure YearRecord where
  netIncome : Option ℝ := none

/- One record of the FMP analyst-estimates payload (the fields the revision
   trend computation reads: the date used for sorting and estimatedEpsAvg). -/
structure EstRecord where
  date : ℤ
  estimatedEpsAvg : ℝ

/- The outcome of every external fetch of one analysis run. -/
structure Env where
  fmp_api_accessible : Bool := false
  yfinance_accessible : Bool := false
  fred_api_accessible : Bool := false
  /- yfinance Ticker("GOOG").info; none when the lookup raises. -/
  info : Option Info := none
  /- FMP income-statement payload (limit 5, newest first); none on failure. -/
  fmpIncome : Option (List YearRecord) := none
  /- FMP analyst-estimates payload; none on failure. -/
  fmpEstimates : Option (List EstRecord) := none
  /- 3-month trailing return of each sector ETF; none when the history fetch
     fails or returns an empty frame (that ticker is then skipped). -/
  qqq3m : Option ℝ := none
  spy3m : Option ℝ := none
  xlk3m : Option ℝ := none
  ftec3m : Option ℝ := none
  xlc3m : Option ℝ := none
  fcom3m : Option ℝ := none

/- info.get("currentPrice", info.get("regularMarketPrice", 0)). -/
noncomputable def currentPriceOf (i : Info) : ℝ :=
  match i.currentPrice with
  | some v => v
  | none => i.regularMarketPrice.getD 0

/- ===== Metrics Normalizer: get_comprehensive_valuation_data ===== -/

structure PriceMetrics where
  current_price : ℝ
  day_high : ℝ
  day_low : ℝ
  week_52_high : ℝ
  week_52_low : ℝ
  price_vs_52w_high : ℝ
  price_vs_52w_low : ℝ
  avg_volume : ℝ
  market_cap : ℝ
  enterprise_value : ℝ
  price_target_mean : ℝ
  price_target_high : ℝ
  price_target_low : ℝ

structure RatioMetrics where
  pe_ratio : ℝ
  forward_pe : ℝ
  peg_ratio : ℝ
  price_to_book : ℝ
  price_to_sales : ℝ
  ev_to_revenue : ℝ
  ev_to_ebitda : ℝ
  price_to_cash_flow : ℝ
  book_value : ℝ
  price_to_book_ratio : ℝ

structure GrowthMetrics where
  revenue_growth : ℝ
  earnings_growth : ℝ
  earnings_quarterly_growth : ℝ
  revenue_quarterly_growth : ℝ
  book_value_growth : ℝ
  eps_forward : ℝ
  eps_trailing : ℝ

structure ProfitabilityMetrics where
  profit_margins : ℝ
  operating_margins : ℝ
  gross_margins : ℝ
  ebitda_margins : ℝ
  roe : ℝ
  roa : ℝ
  roic : ℝ
  net_income_to_common : ℝ
  diluted_eps : ℝ

structure EfficiencyMetrics where
  asset_turnover : ℝ
  inventory_turnover : ℝ
  receivables_turnover : ℝ
  working_capital : ℝ
  operating_cash_flow : ℝ
  free_cash_flow : ℝ
  capex_to_revenue : ℝ

structure LeverageMetrics where
  total_debt : ℝ
  total_cash : ℝ
  net_debt : ℝ
  debt_to_equity : ℝ
  debt_to_assets : ℝ
  interest_coverage : ℝ
  debt_to_ebitda : ℝ
  cash_per_share : ℝ

structure LiquidityMetrics where
  current_ratio : ℝ
  quick_ratio : ℝ
  cash_ratio : ℝ
  operating_cash_flow_ratio : ℝ
  working_capital_ratio : ℝ

structure MarketMetrics where
  beta : ℝ
  shares_outstanding : ℝ
  shares_float : ℝ
  shares_short : ℝ
  short_ratio : ℝ
  short_percent_float : ℝ
  institutional_percent : ℝ
  insider_percent : ℝ

structure DividendMetrics where
  dividend_yield : ℝ
  dividend_rate : ℝ
  payout_ratio : ℝ
  /- info.get("exDividendDate", None): the one metric whose default is None. -/
  ex_dividend_date : Option ℝ
  last_dividend_value : ℝ
  five_year_avg_dividend_yield : ℝ

structure QualityMetrics where
  recommendation_mean : ℝ
  /- info.get("recommendationKey", "none"): a string, defaulting to "none". -/
  recommendation_key : String
  number_of_analyst_opinions : ℝ
  analyst_target_upside : ℝ
  earnings_estimate_current_quarter : ℝ
  earnings_estimate_next_quarter : ℝ
  earnings_estimate_current_year : ℝ
  earnings_estimate_next_year : ℝ

structure ValuationMetrics where
  price_metrics : PriceMetrics
  ratio_metrics : RatioMetrics
  growth_metrics : GrowthMetrics
  profitability_metrics : ProfitabilityMetrics
  efficiency_metrics : EfficiencyMetrics
  leverage_metrics : LeverageMetrics
  liquidity_metrics : LiquidityMetrics
  market_metrics : MarketMetrics
  dividend_metrics : DividendMetrics
  quality_metrics : QualityMetrics

noncomputable def valPriceMetrics (i : Info) : PriceMetrics :=
  { current_price := currentPriceOf i
    day_high := i.dayHigh.getD 0
    day_low := i.dayLow.getD 0
    week_52_high := i.fiftyTwoWeekHigh.getD 0
    week_52_low := i.fiftyTwoWeekLow.getD 0
    -- (current / info.get(k, 1) - 1) if info.get(k) else 0: a key that is
    -- absent or holds 0.0 is falsy, so the guarded branch yields 0.
    price_vs_52w_high :=
      match i.fiftyTwoWeekHigh with
      | some h => if h = 0 then 0 else currentPriceOf i / h - 1
      | none => 0
    price_vs_52w_low :=
      match i.fiftyTwoWeekLow with
      | some l => if l = 0 then 0 else currentPriceOf i / l - 1
      | none => 0
    avg_volume := i.averageVolume.getD 0
    market_cap := i.marketCap.getD 0
    enterprise_value := i.enterpriseValue.getD 0
    price_target_mean := i.targetMeanPrice.getD 0
    price_target_high := i.targetHighPrice.getD 0
    price_target_low := i.targetLowPrice.getD 0 }

noncomputable def valRatioMetrics (i : Info) : RatioMetrics :=
  { pe_ratio := i.trailingPE.getD 0
    forward_pe := i.forwardPE.getD 0
    peg_ratio := i.pegRatio.getD 0
    price_to_book := i.priceToBook.getD 0
    price_to_sales := i.priceToSalesTrailing12Months.getD 0
    ev_to_revenue := i.enterpriseToRevenue.getD 0
    ev_to_ebitda := i.enterpriseToEbitda.getD 0
    price_to_cash_flow := i.priceToCashflow.getD 0
    book_value := i.bookValue.getD 0
    price_to_book_ratio := i.priceToBook.getD 0 }

noncomputable def valGrowthMetrics (i : Info) : GrowthMetrics :=
  { revenue_growth := i.revenueGrowth.getD 0
    earnings_growth := i.earningsGrowth.getD 0
    earnings_quarterly_growth := i.earningsQuarterlyGrowth.getD 0
    revenue_quarterly_growth := i.revenueQuarterlyGrowth.getD 0
    book_value_growth := 0
    eps_forward := i.forwardEps.getD 0
    eps_trailing := i.trailingEps.getD 0 }

noncomputable def valProfitabilityMetrics (i : Info) : ProfitabilityMetrics :=
  { profit_margins := i.profitMargins.getD 0
    operating_margins := i.operatingMargins.getD 0
    gross_margins := i.grossMargins.getD 0
    ebitda_margins := i.ebitdaMargins.getD 0
    roe := i.returnOnEquity.getD 0
    roa := i.returnOnAssets.getD 0
    roic := 0
    net_income_to_common := i.netIncomeToCommon.getD 0
    diluted_eps := i.trailingEps.getD 0 }

noncomputable def valEfficiencyMetrics (i : Info) : EfficiencyMetrics :=
  { asset_turnover := 0
    inventory_turnover := 0
    receivables_turnover := 0
    working_capital := i.totalCash.getD 0 - i.totalDebt.getD 0
    operating_cash_flow := i.operatingCashflow.getD 0
    free_cash_flow := i.freeCashflow.getD 0
    capex_to_revenue := 0 }

noncomputable def valLeverageMetrics (i : Info) : LeverageMetrics :=
  { total_debt := i.totalDebt.getD 0
    total_cash := i.totalCash.getD 0
    net_debt := i.totalDebt.getD 0 - i.totalCash.getD 0
    debt_to_equity := i.debtToEquity.getD 0
    debt_to_assets := 0
    interest_coverage := 0
    debt_to_ebitda := 0
    cash_per_share := i.totalCashPerShare.getD 0 }

noncomputable def valLiquidityMetrics (i : Info) : LiquidityMetrics :=
  { current_ratio := i.currentRatio.getD 0
    quick_ratio := i.quickRatio.getD 0
    cash_ratio := 0
    operating_cash_flow_ratio := 0
    working_capital_ratio := 0 }

noncomputable def valMarketMetrics (i : Info) : MarketMetrics :=
  { beta := i.beta.getD 0
    shares_outstanding := i.sharesOutstanding.getD 0
    shares_float := i.floatShares.getD 0
    shares_short := i.sharesShort.getD 0
    short_ratio := i.shortRatio.getD 0
    short_percent_float := i.shortPercentOfFloat.getD 0
    institutional_percent := i.heldPercentInstitutions.getD 0
    insider_percent := i.heldPercentInsiders.getD 0 }

noncomputable def valDividendMetrics (i : Info) : DividendMetrics :=
  { dividend_yield := i.dividendYield.getD 0
    dividend_rate := i.dividendRate.getD 0
    payout_ratio := i.payoutRatio.getD 0
    ex_dividend_date := i.exDividendDate
    last_dividend_value := i.lastDividendValue.getD 0
    five_year_avg_dividend_yield := i.fiveYearAvgDividendYield.getD 0 }

noncomputable def valQualityMetrics (i : Info) : QualityMetrics :=
  { recommendation_mean := i.recommendationMean.getD 0
    recommendation_key := i.recommendationKey.getD "none"
    number_of_analyst_opinions := i.numberOfAnalystOpinions.getD 0
    analyst_target_upside :=
      if currentPriceOf i > 0 then i.targetMeanPrice.getD 0 / currentPriceOf i - 1 else 0
    earnings_estimate_current_quarter := 0
    earnings_estimate_next_quarter := 0
    earnings_estimate_current_year := 0
    earnings_estimate_next_year := 0 }

/- The Metrics Normalizer as a function of the primary payload. -/
noncomputable def get_comprehensive_valuation_data (i : Info) : ValuationMetrics :=
  { price_metrics := valPriceMetrics i
    ratio_metrics := valRatioMetrics i
    growth_metrics := valGrowthMetrics i
    profitability_metrics := valProfitabilityMetrics i
    efficiency_metrics := valEfficiencyMetrics i
    leverage_metrics := valLeverageMetrics i
    liquidity_metrics := valLiquidityMetrics i
    market_metrics := valMarketMetrics i
    dividend_metrics := valDividendMetrics i
    quality_metrics := valQualityMetrics i }

/- A payload with every key absent. -/
def emptyInfo : Info := {}

/- ===== Earnings-Trend Calculator: get_goog_earnings_data ===== -/

inductive EQuality where
  | HIGH
  | ESTIMATED
  | ESTIMATED_HISTORICAL
  | UNKNOWN
deriving DecidableEq

inductive DataSource where
  | FMP
  | YFINANCE
  | FALLBACK
  | NONE
deriving DecidableEq

structure EarningsData where
  cagr : ℝ
  quality : EQuality
  source : DataSource

def initEarnings : EarningsData := ⟨0, .UNKNOWN, .NONE⟩

/- The usable points of the reversed payload: for each record net_income =
   get("netIncome", 0); a truthy (nonzero) value contributes abs(net_income). -/
noncomputable def usableEarnings (l : List YearRecord) : List ℝ :=
  l.reverse.filterMap fun r =>
    let ni := r.netIncome.getD 0
    if ni = 0 then none else some |ni|

/- (latest / earliest) ** (1 / years) - 1 over the usable list, years being
   its length minus one (the list is oldest first after the reversal). -/
noncomputable def earningsCagr (el : List ℝ) : ℝ :=
  (el.getLastD 0 / el.headD 0) ^ ((1 : ℝ) / ((el.length : ℝ) - 1)) - 1

/- Method 1: FMP historical earnings (runs when the flag is set and the call
   returned a payload of at least 2 records with at least 2 usable points). -/
noncomputable def earningsMethod1 (env : Env) (e : EarningsData) : EarningsData :=
  if env.fmp_api_accessible then
    match env.fmpIncome with
    | some l =>
      if 2 ≤ l.length then
        let el := usableEarnings l
        if 2 ≤ el.length then
          { e with cagr := earningsCagr el, quality := .HIGH, source := .FMP }
        else e
      else e
    | none => e
  else e

/- Method 3: yfinance fallback, entered only when the rate so far is 0 and
   the yfinance flag is set; an exception in the lookup is caught (none case).
   A truthy earningsGrowth is used as is; otherwise the static 0.15. -/
noncomputable def earningsMethod3 (env : Env) (e : EarningsData) : EarningsData :=
  if e.cagr = 0 ∧ env.yfinance_accessible then
    match env.info with
    | some i =>
      let earnings_growth := i.earningsGrowth.getD 0
      if earnings_growth ≠ 0 then
        { e with cagr := earnings_growth, quality := .ESTIMATED, source := .YFINANCE }
      else
        { e with cagr := 0.15, quality := .ESTIMATED_HISTORICAL, source := .FALLBACK }
    | none => e
  else e

/- Method 2 (forward analyst estimates) populates display data only and does
   not touch the rate or the tags, so it is not modelled. -/
noncomputable def get_goog_earnings_data (env : Env) : EarningsData :=
  earningsMethod3 env (earningsMethod1 env initEarnings)

/- ===== Revision-Trend Calculator: get_goog_revisions ===== -/

inductive RDirection where
  | VERY_BULLISH
  | BULLISH
  | POSITIVE
  | SLIGHTLY_POSITIVE
  | STABLE
  | NEGATIVE
  | BEARISH
  | VERY_BEARISH
deriving DecidableEq

structure RevisionData where
  score : ℤ
  direction : RDirection
  confidence : ℝ
  source : DataSource

def initRevisions : RevisionData := ⟨0, .STABLE, 0.5, .NONE⟩

/- df.sort_values("date", ascending=False): sort the estimate records by date,
   newest first (pandas' quicksort is unstable, so any correct descending
   sort models it; ties never matter downstream). -/
def insertByDateDesc (r : EstRecord) : List EstRecord → List EstRecord
  | [] => [r]
  | x :: xs => if x.date ≤ r.date then r :: x :: xs else x :: insertByDateDesc r xs

def sortByDateDesc : List EstRecord → List EstRecord
  | [] => []
  | x :: xs => insertByDateDesc x (sortByDateDesc xs)

/- df.head(3)["estimatedEpsAvg"].tolist() of the date-sorted frame. -/
def recentEstimates (l : List EstRecord) : List ℝ :=
  ((sortByDateDesc l).take 3).map (·.estimatedEpsAvg)

/- recent_estimates[0] and recent_estimates[-1]. -/
def latestEstimate (l : List EstRecord) : ℝ := (recentEstimates l).headD 0

def previousEstimate (l : List EstRecord) : ℝ := (recentEstimates l).getLastD 0

/- The 9-bucket ladder mapping the revision trend to (score, direction,
   confidence). -/
noncomputable def trendBucket (t : ℝ) : ℤ × RDirection × ℝ :=
  if t > 0.15 then (5, .VERY_BULLISH, 0.95)
  else if t > 0.10 then (4, .BULLISH, 0.9)
  else if t > 0.05 then (3, .POSITIVE, 0.8)
  else if t > 0.02 then (2, .SLIGHTLY_POSITIVE, 0.7)
  else if t < -0.15 then (-4, .VERY_BEARISH, 0.95)
  else if t < -0.10 then (-3, .BEARISH, 0.9)
  else if t < -0.05 then (-2, .NEGATIVE, 0.8)
  else (0, .STABLE, 0.6)

/- Method 1: FMP estimates, at least 3 records; the trend division is guarded
   by previous != 0 and when previous is 0 the record is left untouched. -/
noncomputable def revisionsPrimary (env : Env) (r : RevisionData) : RevisionData :=
  if env.fmp_api_accessible then
    match env.fmpEstimates with
    | some l =>
      if 3 ≤ l.length then
        if 2 ≤ (recentEstimates l).length then
          let latest := latestEstimate l
          let previous := previousEstimate l
          if previous ≠ 0 then
            let b := trendBucket ((latest - previous) / |previous|)
            { score := b.1, direction := b.2.1, confidence := b.2.2, source := .FMP }
          else r
        else r
      else r
    | none => r
  else r

/- The price-target upside component of the yfinance fallback. -/
noncomputable def upsideComponent (upside : ℝ) : ℤ :=
  if upside > 0.30 then 4
  else if upside > 0.20 then 3
  else if upside > 0.10 then 2
  else if upside > 0.05 then 1
  else if upside < -0.15 then -3
  else if upside < -0.05 then -1
  else 0

/- The recommendation-mean component of the yfinance fallback. -/
noncomputable def recommendationComponent (m : ℝ) : ℤ :=
  if m < 2.0 then 2
  else if m < 2.5 then 1
  else if m > 4.0 then -2
  else if m > 3.5 then -1
  else 0

/- The analyst-count confidence tiering of the yfinance fallback. -/
noncomputable def analystConfidence (n : ℝ) : ℝ :=
  if n > 20 then 0.8 else if n > 10 then 0.7 else 0.6

/- The direction ladder applied to the summed fallback score. -/
def fallbackDirection (s : ℤ) : RDirection :=
  if s ≥ 4 then .VERY_BULLISH
  else if s ≥ 2 then .BULLISH
  else if s ≥ 1 then .POSITIVE
  else if s ≤ -3 then .VERY_BEARISH
  else if s ≤ -1 then .BEARISH
  else .STABLE

/- Method 2: yfinance backup, entered only when the score so far is 0 and the
   yfinance flag is set; requires truthy target mean price and current price. -/
noncomputable def revisionsFallback (env : Env) (r : RevisionData) : RevisionData :=
  if r.score = 0 ∧ env.yfinance_accessible then
    match env.info with
    | some i =>
      let recommendation_mean := i.recommendationMean.getD 3
      let target_mean_price := i.targetMeanPrice.getD 0
      let current_price := currentPriceOf i
      let num_analysts := i.numberOfAnalystOpinions.getD 0
      if target_mean_price ≠ 0 ∧ current_price ≠ 0 then
        let upside := (target_mean_price - current_price) / current_price
        let s := upsideComponent upside + recommendationComponent recommendation_mean
        { score := s, direction := fallbackDirection s,
          confidence := analystConfidence num_analysts, source := .YFINANCE }
      else r
    | none => r
  else r

noncomputable def get_goog_revisions (env : Env) : RevisionData :=
  revisionsFallback env (revisionsPrimary env initRevisions)

/- ===== Macro Environment Calculator: get_goog_macro_analysis ===== -/

/- Scoring ladder for XLC (communication services), the industry-specific
   instrument. -/
noncomputable def xlcPoints (r : ℝ) : ℤ :=
  if r > 0.20 then 3
  else if r > 0.10 then 2
  else if r > 0.05 then 1
  else if r < -0.15 then -3
  else if r < -0.05 then -1
  else 0

/- Scoring ladder for QQQ (technology sector). -/
noncomputable def qqqPoints (r : ℝ) : ℤ :=
  if r > 0.15 then 2
  else if r > 0.05 then 1
  else if r < -0.10 then -1
  else 0

/- The static google_factors table: every weight is added unconditionally
   (ai_leadership 3, search_dominance 2, cloud_growth 2, regulatory_risk -2,
   ad_market_strength 2, youtube_growth 2, ai_competition -1,
   privacy_regulations -1, waymo_opportunity 1, quantum_computing 1). -/
def googleFactorWeights : List ℤ := [3, 2, 2, -2, 2, 2, -1, -1, 1, 1]

/- The score field of get_goog_macro_analysis: only QQQ and XLC feed scoring
   (the other four tickers and the FRED indicators are informational only);
   a ticker whose history fetch failed or was empty is skipped. -/
noncomputable def goog_macro_score (env : Env) : ℤ :=
  (match env.qqq3m with | some r => qqqPoints r | none => 0)
    + (match env.xlc3m with | some r => xlcPoints r | none => 0)
    + googleFactorWeights.sum

/- ===== Management Quality Calculator: analyze_goog_ceo ===== -/

/- The static ceo_database entry fields the scoring reads. -/
structure CeoRecord where
  was_cfo : Bool
  vision : ℤ
  execution : ℤ
  founder : Bool
  technical : Bool
  strategic : Bool

def googCeo : CeoRecord :=
  { was_cfo := false, vision := 9, execution := 9,
    founder := false, technical := true, strategic := true }

/- +4 when not a former CFO, -2 otherwise. -/
def cfoPoints (c : CeoRecord) : ℤ := if c.was_cfo then -2 else 4

/- background_scores: technical 2, strategic 1, founder 2, plus the hardcoded
   industry_experience 2. -/
def backgroundPoints (c : CeoRecord) : ℤ :=
  (if c.technical then 2 else 0) + (if c.strategic then 1 else 0)
    + (if c.founder then 2 else 0) + 2

def visionPoints (v : ℤ) : ℤ :=
  if v ≥ 9 then 4 else if v ≥ 7 then 3 else if v ≥ 5 then 1 else -1

def executionPoints (e : ℤ) : ℤ :=
  if e ≥ 9 then 4 else if e ≥ 7 then 3 else if e ≥ 5 then 1 else -2

/- Performance validation against live ROE and profit margins (entered only
   when the yfinance flag is set; an exception leaves the score untouched). -/
noncomputable def performancePoints (env : Env) : ℤ :=
  if env.yfinance_accessible then
    match env.info with
    | some i =>
      let roe := i.returnOnEquity.getD 0
      let pm := i.profitMargins.getD 0
      (if roe > 0.15 then 2 else if roe > 0.10 then 1 else if roe < 0.05 then -1 else 0)
        + (if pm > 0.20 then 1 else if pm < 0.10 then -1 else 0)
    | none => 0
  else 0

/- google_specific_factors: six +1 items and one 0 item. -/
def googleCeoFactorDeltas : List ℤ := [1, 1, 1, 1, 1, 0, 1]

/- The raw accumulated CEO score before normalization. -/
noncomputable def ceoRawScore (c : CeoRecord) (env : Env) : ℤ :=
  cfoPoints c + backgroundPoints c + visionPoints c.vision
    + executionPoints c.execution + performancePoints env
    + googleCeoFactorDeltas.sum

/- final_score = min(max(score, 0), 15). -/
def ceoClamp (r : ℤ) : ℤ := min (max r 0) 15

noncomputable def analyze_goog_ceo (c : CeoRecord) (env : Env) : ℤ :=
  ceoClamp (ceoRawScore c env)

/- ===== Conviction Scorer: calculate_goog_conviction_score ===== -/

/- Factor 1 of the valuation analysis: forward vs trailing P/E compression. -/
noncomputable def peCompressionPoints (r : RatioMetrics) : ℤ :=
  if r.forward_pe > 0 ∧ r.pe_ratio > 0 then
    let pe_compression := (r.pe_ratio - r.forward_pe) / r.pe_ratio
    if pe_compression > 0.25 then 10
    else if pe_compression > 0.20 then 8
    else if pe_compression > 0.15 then 6
    else if pe_compression > 0.10 then 4
    else if pe_compression > 0.05 then 2
    else 0
  else 0

/- The PEG value used by factor 2: derived from forward P/E and the earnings
   CAGR when the metric is the 0 sentinel. -/
noncomputable def pegUsed (r : RatioMetrics) (earnings_cagr : ℝ) : ℝ :=
  if r.peg_ratio = 0 ∧ r.forward_pe > 0 ∧ earnings_cagr ≠ 0 then
    r.forward_pe / (|earnings_cagr| * 100)
  else r.peg_ratio

/- Factor 2 of the valuation analysis: the PEG ladder. -/
noncomputable def pegPoints (earnings_cagr peg : ℝ) : ℤ :=
  if earnings_cagr > 0 ∧ peg > 0 then
    if peg < 0.5 then 8
    else if peg < 0.8 then 6
    else if peg < 1.2 then 4
    else if peg < 1.8 then 2
    else if peg > 2.5 then -2
    else 0
  else if earnings_cagr < 0 then -3
  else 0

/- target_upside = mean target / current price - 1 when current price > 0. -/
noncomputable def targetUpsideOf (p : PriceMetrics) : ℝ :=
  if p.current_price > 0 then p.price_target_mean / p.current_price - 1 else 0

/- Factor 3 of the valuation analysis: analyst target upside ladder. -/
noncomputable def targetUpsidePoints (tu : ℝ) : ℤ :=
  if tu ≠ 0 then
    if tu > 0.30 then 4
    else if tu > 0.15 then 2
    else if tu < -0.10 then -2
    else 0
  else 0

/- Factor 4 of the valuation analysis: positioning vs the 52-week high. -/
noncomputable def week52Points (p : ℝ) : ℤ :=
  if p < -0.30 then 3 else if p < -0.15 then 1 else 0

noncomputable def valuationScore (m : ValuationMetrics) (earnings_cagr : ℝ) : ℤ :=
  peCompressionPoints m.ratio_metrics
    + pegPoints earnings_cagr (pegUsed m.ratio_metrics earnings_cagr)
    + targetUpsidePoints (targetUpsideOf m.price_metrics)
    + week52Points m.price_metrics.price_vs_52w_high

/- Growth factor 1: the earnings CAGR ladder. -/
noncomputable def cagrPoints (c : ℝ) : ℤ :=
  if c > 0.40 then 12
  else if c > 0.30 then 10
  else if c > 0.20 then 8
  else if c > 0.15 then 6
  else if c > 0.10 then 4
  else if c > 0 then 2
  else -4

/- Growth factor 2: the revenue growth ladder. -/
noncomputable def revenueGrowthPoints (r : ℝ) : ℤ :=
  if r > 0.30 then 8
  else if r > 0.20 then 6
  else if r > 0.15 then 4
  else if r > 0.10 then 3
  else if r > 0.05 then 2
  else if r > 0 then 1
  else -3

/- Growth factor 3: the profit margin ladder. -/
noncomputable def profitMarginPoints (p : ℝ) : ℤ :=
  if p > 0.30 then 5
  else if p > 0.20 then 4
  else if p > 0.15 then 3
  else if p > 0.10 then 2
  else if p > 0.05 then 1
  else 0

noncomputable def growthScore (m : ValuationMetrics) (earnings_cagr : ℝ) : ℤ :=
  cagrPoints earnings_cagr
    + revenueGrowthPoints m.growth_metrics.revenue_growth
    + profitMarginPoints m.profitability_metrics.profit_margins

/- Python int(): truncation toward zero. -/
noncomputable def pyInt (x : ℝ) : ℤ := if 0 ≤ x then ⌊x⌋ else ⌈x⌉

/- management_score = min(int(ceo_score * 1.67), 25). -/
noncomputable def managementScore (ceo_score : ℤ) : ℤ :=
  min (pyInt ((ceo_score : ℝ) * 1.67)) 25

/- Consensus factor 1: the revision-score ladder. -/
def revisionLadderPoints (s : ℤ) : ℤ :=
  if s ≥ 5 then 15
  else if s ≥ 4 then 12
  else if s ≥ 3 then 10
  else if s ≥ 2 then 7
  else if s ≥ 1 then 4
  else if s ≤ -4 then -8
  else if s ≤ -3 then -5
  else if s ≤ -2 then -3
  else 0

/- consensus_score = ladder + min(max(macro_score * 1.5, -8), 10); the second
   summand is a float, so the consensus sub-score (and the composite) is one. -/
noncomputable def consensusScore (revision_score macro_score : ℤ) : ℝ :=
  (revisionLadderPoints revision_score : ℝ)
    + min (max ((macro_score : ℝ) * 1.5) (-8)) 10

structure Breakdown where
  valuation : ℤ
  growth : ℤ
  management : ℤ
  consensus : ℝ

/- The enhanced_data object (the computed values the caller can read back;
   financial_data and the flags dictionary are not consulted downstream). -/
structure Enhanced where
  earnings_data : EarningsData
  revision_data : RevisionData
  ceo_score : ℤ
  macro_score : ℤ
  valuation_metrics : ValuationMetrics

/- The top-level computation.  Everything after the yfinance quote lookup sits
   in one try block; the lookup raising (info = none) is caught by the except
   branch, which returns score 0 with empty breakdown and empty enhanced data
   (modelled as none).  With the lookup succeeding the four sub-scores are
   computed and the composite is their plain sum - no clamp is applied. -/
noncomputable def calculate_goog_conviction_score (env : Env) :
    ℝ × Option Breakdown × Option Enhanced :=
  match env.info with
  | none => (0, none, none)
  | some i =>
    let m := get_comprehensive_valuation_data i
    let earnings_data := get_goog_earnings_data env
    let valuation_score := valuationScore m earnings_data.cagr
    let growth_score := growthScore m earnings_data.cagr
    let ceo_score := analyze_goog_ceo googCeo env
    let management_score := managementScore ceo_score
    let revision_data := get_goog_revisions env
    let macro_score := goog_macro_score env
    let consensus_score := consensusScore revision_data.score macro_score
    let total_score : ℝ :=
      (valuation_score : ℝ) + (growth_score : ℝ) + (management_score : ℝ)
        + consensus_score
    (total_score,
      some ⟨valuation_score, growth_score, management_score, consensus_score⟩,
      some ⟨earnings_data, revision_data, ceo_score, macro_score, m⟩)

/- ===== Recommendation Mapper: get_position_recommendation ===== -/

structure Recommendation where
  action : String
  position_size : String
  risk_level : String
  urgency : String
  rationale : String

noncomputable def get_position_recommendation (conviction_score : ℝ) : Recommendation :=
  if conviction_score ≥ 80 then
    { action := "🚀 MAXIMUM CONVICTION BUY"
      position_size := "Very Large (10-15% portfolio)"
      risk_level := "MAXIMUM CONVICTION"
      urgency := "IMMEDIATE"
      rationale := "Exceptional conviction across all metrics - rare opportunity" }
  else if conviction_score ≥ 70 then
    { action := "🐂 GRAB BULL BY HORNS"
      position_size := "Large (7-10% portfolio)"
      risk_level := "VERY HIGH CONVICTION"
      urgency := "IMMEDIATE"
      rationale := "High conviction - time to make a major bet" }
  else if conviction_score ≥ 60 then
    { action := "💪 STRONG BUY"
      position_size := "Medium-Large (5-7% portfolio)"
      risk_level := "HIGH CONVICTION"
      urgency := "HIGH"
      rationale := "Strong fundamentals support significant position" }
  else if conviction_score ≥ 50 then
    { action := "🚀 BUY"
      position_size := "Medium (3-5% portfolio)"
      risk_level := "STRONG CONVICTION"
      urgency := "MEDIUM-HIGH"
      rationale := "Good opportunity with solid conviction" }
  else if conviction_score ≥ 40 then
    { action := "👀 WATCH/SMALL BUY"
      position_size := "Small (1-3% portfolio)"
      risk_level := "MODERATE CONVICTION"
      urgency := "MEDIUM"
      rationale := "Some positive factors but limited conviction" }
  else
    { action := "❌ AVOID"
      position_size := "None (0% portfolio)"
      risk_level := "NO CONVICTION"
      urgency := "NONE"
      rationale := "Insufficient conviction for investment" }

/- ===== Concrete run scenarios ===== -/

/- A run where every adapter is unavailable. -/
def envDown : Env := {}

/- A run where only yfinance answers, and its payload has no keys: the
   deterministic all-static scenario of the specification. -/
def env0 : Env := { yfinance_accessible := true, info := some emptyInfo }

/- A rich yfinance payload on which every scoring ladder hits its maximum. -/
def richInfo : Info :=
  { currentPrice := some 100, trailingPE := some 20, forwardPE := some 10,
    pegRatio := some 0.3, targetMeanPrice := some 140,
    fiftyTwoWeekHigh := some 200, earningsGrowth := some 0.45,
    revenueGrowth := some 0.35, profitMargins := some 0.35,
    returnOnEquity := some 0.2, recommendationMean := some 1.5,
    numberOfAnalystOpinions := some 25 }

/- FMP down, yfinance up with the rich payload, both scored ETFs strong. -/
def envMax : Env :=
  { yfinance_accessible := true, info := some richInfo,
    qqq3m := some 0.16, xlc3m := some 0.25 }

/- An FMP estimates payload whose third-newest EPS average is 0: the trend
   division guard fires. -/
def envPrevZero : Env :=
  { fmp_api_accessible := true,
    fmpEstimates := some [⟨3, 2⟩, ⟨2, 0⟩, ⟨1, 0⟩] }

/- FMP income payloads (newest first, as the API returns them) for the CAGR
   examples: net incomes 100 then 121 one year apart, and 100, 110, 121. -/
def envCagr2 : Env :=
  { fmp_api_accessible := true,
    fmpIncome := some [⟨some 121⟩, ⟨some 100⟩] }

def envCagr3 : Env :=
  { fmp_api_accessible := true,
    fmpIncome := some [⟨some 121⟩, ⟨some 110⟩, ⟨some 100⟩] }

/- ===== Evaluation lemmas for the concrete scenarios ===== -/

lemma earnings_envDown : get_goog_earnings_data envDown = initEarnings := by
  norm_num [get_goog_earnings_data, earningsMethod1, earningsMethod3, envDown,
    initEarnings]

lemma earnings_env0 :
    get_goog_earnings_data env0 = ⟨0.15, .ESTIMATED_HISTORICAL, .FALLBACK⟩ := by
  norm_num [get_goog_earnings_data, earningsMethod1, earningsMethod3, env0,
    emptyInfo, initEarnings]

lemma earnings_envMax :
    get_goog_earnings_data envMax = ⟨0.45, .ESTIMATED, .YFINANCE⟩ := by
  norm_num [get_goog_earnings_data, earningsMethod1, earningsMethod3, envMax,
    richInfo, initEarnings]

lemma revisions_env0 : get_goog_revisions env0 = initRevisions := by
  norm_num [get_goog_revisions, revisionsPrimary, revisionsFallback, env0,
    emptyInfo, initRevisions, currentPriceOf]

lemma revisions_envMax :
    get_goog_revisions envMax = ⟨6, .VERY_BULLISH, 0.8, .YFINANCE⟩ := by
  norm_num [get_goog_revisions, revisionsPrimary, revisionsFallback, envMax,
    richInfo, initRevisions, currentPriceOf, upsideComponent,
    recommendationComponent, analystConfidence, fallbackDirection]

lemma ceo_env0 : analyze_goog_ceo googCeo env0 = 15 := by
  norm_num [analyze_goog_ceo, ceoClamp, ceoRawScore, cfoPoints, backgroundPoints,
    visionPoints, executionPoints, performancePoints, googleCeoFactorDeltas,
    googCeo, env0, emptyInfo]

lemma ceo_envMax : analyze_goog_ceo googCeo envMax = 15 := by
  norm_num [analyze_goog_ceo, ceoClamp, ceoRawScore, cfoPoints, backgroundPoints,
    visionPoints, executionPoints, performancePoints, googleCeoFactorDeltas,
    googCeo, envMax, richInfo]

lemma macro_env0 : goog_macro_score env0 = 9 := by
  norm_num [goog_macro_score, googleFactorWeights, env0]

lemma macro_envMax : goog_macro_score envMax = 14 := by
  norm_num [goog_macro_score, googleFactorWeights, envMax, qqqPoints, xlcPoints]

lemma management_15 : managementScore 15 = 25 := by
  norm_num [managementScore, pyInt]

lemma valuation_env0 :
    valuationScore (get_comprehensive_valuation_data emptyInfo) 0.15 = 0 := by
  norm_num [valuationScore, peCompressionPoints, pegUsed, pegPoints,
    targetUpsideOf, targetUpsidePoints, week52Points,
    get_comprehensive_valuation_data, valRatioMetrics, valPriceMetrics,
    emptyInfo, currentPriceOf]

lemma growth_env0 :
    growthScore (get_comprehensive_valuation_data emptyInfo) 0.15 = 1 := by
  norm_num [growthScore, cagrPoints, revenueGrowthPoints, profitMarginPoints,
    get_comprehensive_valuation_data, valGrowthMetrics, valProfitabilityMetrics,
    emptyInfo]

lemma consensus_env0 : consensusScore 0 9 = 10 := by
  norm_num [consensusScore, revisionLadderPoints, max_def, min_def]

lemma calc_env0 :
    calculate_goog_conviction_score env0 =
      (36, some ⟨0, 1, 25, 10⟩,
        some ⟨⟨0.15, .ESTIMATED_HISTORICAL, .FALLBACK⟩, initRevisions, 15, 9,
          get_comprehensive_valuation_data emptyInfo⟩) := by
  have hinfo : env0.info = some emptyInfo := rfl
  rw [calculate_goog_conviction_score, hinfo]
  rw [earnings_env0, revisions_env0, ceo_env0, macro_env0]
  have h1 := valuation_env0
  have h2 := growth_env0
  norm_num at h1 h2
  norm_num [h1, h2, management_15, consensus_env0, initRevisions]

lemma valuation_envMax :
    valuationScore (get_comprehensive_valuation_data richInfo) 0.45 = 25 := by
  norm_num [valuationScore, peCompressionPoints, pegUsed, pegPoints,
    targetUpsideOf, targetUpsidePoints, week52Points,
    get_comprehensive_valuation_data, valRatioMetrics, valPriceMetrics,
    richInfo, currentPriceOf]

lemma growth_envMax :
    growthScore (get_comprehensive_valuation_data richInfo) 0.45 = 25 := by
  norm_num [growthScore, cagrPoints, revenueGrowthPoints, profitMarginPoints,
    get_comprehensive_valuation_data, valGrowthMetrics, valProfitabilityMetrics,
    richInfo]

lemma consensus_envMax : consensusScore 6 14 = 25 := by
  norm_num [consensusScore, revisionLadderPoints, max_def, min_def]

lemma calc_envMax :
    calculate_goog_conviction_score envMax =
      (100, some ⟨25, 25, 25, 25⟩,
        some ⟨⟨0.45, .ESTIMATED, .YFINANCE⟩, ⟨6, .VERY_BULLISH, 0.8, .YFINANCE⟩,
          15, 14, get_comprehensive_valuation_data richInfo⟩) := by
  have hinfo : envMax.info = some richInfo := rfl
  rw [calculate_goog_conviction_score, hinfo]
  rw [earnings_envMax, revisions_envMax, ceo_envMax, macro_envMax]
  have h1 := valuation_envMax
  have h2 := growth_envMax
  norm_num at h1 h2
  norm_num [h1, h2, management_15, consensus_envMax]

/- ===== Range lemmas ===== -/

lemma trendBucket_bounds (t : ℝ) :
    -4 ≤ (trendBucket t).1 ∧ (trendBucket t).1 ≤ 5 := by
  unfold trendBucket
  split_ifs <;> norm_num

lemma upsideComponent_bounds (u : ℝ) :
    -3 ≤ upsideComponent u ∧ upsideComponent u ≤ 4 := by
  unfold upsideComponent
  split_ifs <;> norm_num

lemma recommendationComponent_bounds (m : ℝ) :
    -2 ≤ recommendationComponent m ∧ recommendationComponent m ≤ 2 := by
  unfold recommendationComponent
  split_ifs <;> norm_num

lemma revisionsPrimary_bounds (env : Env) (r : RevisionData)
    (h0 : -4 ≤ r.score ∧ r.score ≤ 5) :
    -4 ≤ (revisionsPrimary env r).score ∧ (revisionsPrimary env r).score ≤ 5 := by
  unfold revisionsPrimary
  dsimp only
  repeat' split
  all_goals first
    | exact h0
    | exact trendBucket_bounds _

lemma fallbackSum_bounds (u m : ℝ) :
    -5 ≤ upsideComponent u + recommendationComponent m ∧
      upsideComponent u + recommendationComponent m ≤ 6 := by
  have h1 := upsideComponent_bounds u
  have h2 := recommendationComponent_bounds m
  omega

lemma revisionsFallback_bounds (env : Env) (r : RevisionData)
    (h0 : -4 ≤ r.score ∧ r.score ≤ 5) :
    -5 ≤ (revisionsFallback env r).score ∧ (revisionsFallback env r).score ≤ 6 := by
  unfold revisionsFallback
  dsimp only
  repeat' split
  all_goals first
    | exact ⟨by linarith [h0.1], by linarith [h0.2]⟩
    | exact fallbackSum_bounds _ _

lemma get_goog_revisions_bounds (env : Env) :
    -5 ≤ (get_goog_revisions env).score ∧ (get_goog_revisions env).score ≤ 6 := by
  unfold get_goog_revisions
  exact revisionsFallback_bounds env _
    (revisionsPrimary_bounds env initRevisions (by norm_num [initRevisions]))

lemma peCompressionPoints_le (r : RatioMetrics) : peCompressionPoints r ≤ 10 := by
  unfold peCompressionPoints
  dsimp only
  split_ifs <;> norm_num

lemma pegPoints_le (c p : ℝ) : pegPoints c p ≤ 8 := by
  unfold pegPoints
  split_ifs <;> norm_num

lemma targetUpsidePoints_le (t : ℝ) : targetUpsidePoints t ≤ 4 := by
  unfold targetUpsidePoints
  split_ifs <;> norm_num

lemma week52Points_le (p : ℝ) : week52Points p ≤ 3 := by
  unfold week52Points
  split_ifs <;> norm_num

/- The valuation factors peak at 10 + 8 + 4 + 3: the valuation sub-score can
   never exceed its documented 25-point cap. -/
lemma valuationScore_le (m : ValuationMetrics) (c : ℝ) : valuationScore m c ≤ 25 := by
  have h1 := peCompressionPoints_le m.ratio_metrics
  have h2 := pegPoints_le c (pegUsed m.ratio_metrics c)
  have h3 := targetUpsidePoints_le (targetUpsideOf m.price_metrics)
  have h4 := week52Points_le m.price_metrics.price_vs_52w_high
  unfold valuationScore
  omega

lemma cagrPoints_le (c : ℝ) : cagrPoints c ≤ 12 := by
  unfold cagrPoints
  split_ifs <;> norm_num

lemma revenueGrowthPoints_le (r : ℝ) : revenueGrowthPoints r ≤ 8 := by
  unfold revenueGrowthPoints
  split_ifs <;> norm_num

lemma profitMarginPoints_le (p : ℝ) : profitMarginPoints p ≤ 5 := by
  unfold profitMarginPoints
  split_ifs <;> norm_num

lemma growthScore_le (m : ValuationMetrics) (c : ℝ) : growthScore m c ≤ 25 := by
  have h1 := cagrPoints_le c
  have h2 := revenueGrowthPoints_le m.growth_metrics.revenue_growth
  have h3 := profitMarginPoints_le m.profitability_metrics.profit_margins
  unfold growthScore
  omega

lemma managementScore_le (c : ℤ) : managementScore c ≤ 25 := min_le_right _ _

lemma revisionLadderPoints_le (s : ℤ) : revisionLadderPoints s ≤ 15 := by
  unfold revisionLadderPoints
  split_ifs <;> norm_num

lemma consensusScore_le (rs ms : ℤ) : consensusScore rs ms ≤ 25 := by
  unfold consensusScore
  have h1 : ((revisionLadderPoints rs : ℤ) : ℝ) ≤ 15 := by
    exact_mod_cast revisionLadderPoints_le rs
  have h2 : min (max ((ms : ℝ) * 1.5) (-8)) 10 ≤ 10 := min_le_right _ _
  linarith

/- The composite conviction score never exceeds 100 (each of the four
   sub-scores is bounded by 25), and the failed run returns 0. -/
lemma conviction_le_100 (env : Env) :
    (calculate_goog_conviction_score env).1 ≤ 100 := by
  rcases hinfo : env.info with _ | i
  · simp [calculate_goog_conviction_score, hinfo]
  · rw [calculate_goog_conviction_score, hinfo]
    dsimp only
    have h1 : ((valuationScore (get_comprehensive_valuation_data i)
        (get_goog_earnings_data env).cagr : ℤ) : ℝ) ≤ 25 := by
      exact_mod_cast valuationScore_le _ _
    have h2 : ((growthScore (get_comprehensive_valuation_data i)
        (get_goog_earnings_data env).cagr : ℤ) : ℝ) ≤ 25 := by
      exact_mod_cast growthScore_le _ _
    have h3 : ((managementScore (analyze_goog_ceo googCeo env) : ℤ) : ℝ) ≤ 25 := by
      exact_mod_cast managementScore_le _
    have h4 := consensusScore_le (get_goog_revisions env).score (goog_macro_score env)
    linarith

/- ===== Claims ===== -/

/-- C1: for every run in which the quote lookup succeeds, the composite
conviction score returned by calculate_goog_conviction_score equals exactly
the sum of the four sub-scores of the returned breakdown (valuation, growth,
management, consensus); no clamp to the 0..100 range is applied to that sum
before it is handed to the Recommendation Mapper. -/
theorem C1_composite_is_sum_of_subscores (env : Env) (s : ℝ) (b : Breakdown)
    (e : Option Enhanced)
    (h : calculate_goog_conviction_score env = (s, some b, e)) :
    s = (b.valuation : ℝ) + (b.growth : ℝ) + (b.management : ℝ) + b.consensus := by
  rcases hinfo : env.info with _ | i
  · rw [calculate_goog_conviction_score, hinfo] at h
    simp at h
  · rw [calculate_goog_conviction_score, hinfo] at h
    dsimp only at h
    simp only [Prod.mk.injEq, Option.some.injEq] at h
    obtain ⟨hs, hb, -⟩ := h
    subst hb
    exact hs.symm

/-- C1 witness: on the concrete run env0 the pipeline returns composite 36
with breakdown scores 0, 1, 25 and 10, and the theorem instantiates to
36 = 0 + 1 + 25 + 10. -/
theorem C1_composite_is_sum_witness :
    (36 : ℝ) = ((0 : ℤ) : ℝ) + ((1 : ℤ) : ℝ) + ((25 : ℤ) : ℝ) + 10 :=
  C1_composite_is_sum_of_subscores env0 36 ⟨0, 1, 25, 10⟩
    (some ⟨⟨0.15, .ESTIMATED_HISTORICAL, .FALLBACK⟩, initRevisions, 15, 9,
      get_comprehensive_valuation_data emptyInfo⟩) calc_env0

/-- C2: the recommendation is a pure step function of the composite score
with closed lower bounds: scores of at least 80 map to MAXIMUM CONVICTION
BUY, of at least 70 (below 80) to GRAB BULL BY HORNS, of at least 60 to
STRONG BUY, of at least 50 to BUY, of at least 40 to WATCH/SMALL BUY, and
anything below 40 to AVOID. -/
theorem C2_recommendation_step_function (s : ℝ) :
    (80 ≤ s → (get_position_recommendation s).action = "🚀 MAXIMUM CONVICTION BUY") ∧
    (70 ≤ s → s < 80 → (get_position_recommendation s).action = "🐂 GRAB BULL BY HORNS") ∧
    (60 ≤ s → s < 70 → (get_position_recommendation s).action = "💪 STRONG BUY") ∧
    (50 ≤ s → s < 60 → (get_position_recommendation s).action = "🚀 BUY") ∧
    (40 ≤ s → s < 50 → (get_position_recommendation s).action = "👀 WATCH/SMALL BUY") ∧
    (s < 40 → (get_position_recommendation s).action = "❌ AVOID") := by
  unfold get_position_recommendation
  refine ⟨?_, ?_, ?_, ?_, ?_, ?_⟩ <;> intros <;> split_ifs <;>
    first | rfl | linarith

/-- C2 witness: composite 80 maps to the top tier, 79.9 to GRAB BULL BY
HORNS, 40 to WATCH/SMALL BUY and 39.9 to AVOID. -/
theorem C2_recommendation_step_function_witness :
    (get_position_recommendation 80).action = "🚀 MAXIMUM CONVICTION BUY" ∧
    (get_position_recommendation 79.9).action = "🐂 GRAB BULL BY HORNS" ∧
    (get_position_recommendation 40).action = "👀 WATCH/SMALL BUY" ∧
    (get_position_recommendation 39.9).action = "❌ AVOID" :=
  ⟨(C2_recommendation_step_function 80).1 (by norm_num),
    (C2_recommendation_step_function 79.9).2.1 (by norm_num) (by norm_num),
    (C2_recommendation_step_function 40).2.2.2.2.1 (by norm_num) (by norm_num),
    (C2_recommendation_step_function 39.9).2.2.2.2.2 (by norm_num)⟩

/-- C3 counterexample: in a run where every adapter is unavailable (the case
the claim explicitly includes) the yfinance guard keeps the static fallback
from ever running, so the earnings signal keeps growth rate 0 with quality
UNKNOWN instead of the claimed 0.15 with ESTIMATED_HISTORICAL. -/
theorem C3_all_adapters_down_counterexample :
    (get_goog_earnings_data envDown).cagr = 0 ∧
    (get_goog_earnings_data envDown).quality = EQuality.UNKNOWN ∧
    ¬((get_goog_earnings_data envDown).cagr = 0.15 ∧
      (get_goog_earnings_data envDown).quality = EQuality.ESTIMATED_HISTORICAL) := by
  rw [earnings_envDown]
  norm_num [initEarnings]

/-- C3 amended: when the primary statements path leaves the compound growth
rate at 0, the yfinance adapter is accessible, its payload lookup succeeds
and its earnings-growth field is zero or absent, the earnings signal is
exactly 0.15 with quality ESTIMATED_HISTORICAL (source FALLBACK).  When
yfinance is inaccessible the signal instead keeps its UNKNOWN/NONE defaults. -/
theorem C3_static_fallback (env : Env) (i : Info)
    (h1 : (earningsMethod1 env initEarnings).cagr = 0)
    (h2 : env.yfinance_accessible = true)
    (h3 : env.info = some i)
    (h4 : i.earningsGrowth.getD 0 = 0) :
    (get_goog_earnings_data env).cagr = 0.15 ∧
    (get_goog_earnings_data env).quality = EQuality.ESTIMATED_HISTORICAL ∧
    (get_goog_earnings_data env).source = DataSource.FALLBACK := by
  unfold get_goog_earnings_data earningsMethod3
  simp [h1, h2, h3, h4]

/-- C3 witness: on env0 (only yfinance up, its payload empty) the primary
path leaves the rate at 0 and the result is 0.15 with ESTIMATED_HISTORICAL. -/
theorem C3_static_fallback_witness :
    (earningsMethod1 env0 initEarnings).cagr = 0 ∧
    (get_goog_earnings_data env0).cagr = 0.15 ∧
    (get_goog_earnings_data env0).quality = EQuality.ESTIMATED_HISTORICAL := by
  have h1 : (earningsMethod1 env0 initEarnings).cagr = 0 := by
    norm_num [earningsMethod1, env0, initEarnings]
  exact ⟨h1, (C3_static_fallback env0 emptyInfo h1 rfl rfl rfl).1,
    (C3_static_fallback env0 emptyInfo h1 rfl rfl rfl).2.1⟩

/-- C5 counterexample: on the run envMax the secondary fallback sums an
upside component of 4 and a recommendation component of 2, producing the
revision score 6, which lies outside the claimed range -4..5. -/
theorem C5_score_six_counterexample :
    (get_goog_revisions envMax).score = 6 ∧
    ¬(-4 ≤ (get_goog_revisions envMax).score ∧
      (get_goog_revisions envMax).score ≤ 5) := by
  rw [revisions_envMax]
  norm_num

/-- C5 amended: the revision score is an integer in the range -5..6 on every
run: the primary trend ladder only produces values in -4..5, while the
secondary fallback sums a price-target-upside component in -3..4 and a
recommendation-mean component in -2..2. -/
theorem C5_revision_score_range (env : Env) :
    -5 ≤ (get_goog_revisions env).score ∧ (get_goog_revisions env).score ≤ 6 :=
  get_goog_revisions_bounds env

/-- C7 counterexample (the negation of the claim): no input data makes the
composite conviction score exceed 100, because each of the four sub-scores
is bounded by 25. -/
theorem C7_no_input_exceeds_100 :
    ¬ ∃ env : Env, 100 < (calculate_goog_conviction_score env).1 := by
  rintro ⟨env, h⟩
  exact absurd h (not_lt.mpr (conviction_le_100 env))

/-- C7 amended: the unclamped composite is nevertheless bounded: it never
exceeds 100 on any input, and it attains exactly 100 on the run envMax. -/
theorem C7_composite_bounded_attains_100 :
    (∀ env : Env, (calculate_goog_conviction_score env).1 ≤ 100) ∧
    (calculate_goog_conviction_score envMax).1 = 100 := by
  refine ⟨conviction_le_100, ?_⟩
  rw [calc_envMax]

/-- C8: the management quality final score is the raw accumulated score
clamped to 0..15 via min(max(raw, 0), 15); a raw score of 20 clamps to 15
and a raw score of -5 clamps to 0. -/
theorem C8_management_clamp :
    (∀ (c : CeoRecord) (env : Env),
      analyze_goog_ceo c env = min (max (ceoRawScore c env) 0) 15) ∧
    ceoClamp 20 = 15 ∧ ceoClamp (-5) = 0 := by
  refine ⟨fun c env => rfl, by norm_num [ceoClamp], by norm_num [ceoClamp]⟩

/-- C9: in the revision primary path the trend division is evaluated only
when the previous estimate is nonzero: when it is 0 the primary path leaves
the revision record untouched (no division is reached) and control falls
through to the secondary fallback path. -/
theorem C9_trend_division_guard (env : Env) (l : List EstRecord)
    (r : RevisionData)
    (h1 : env.fmp_api_accessible = true)
    (h2 : env.fmpEstimates = some l)
    (h3 : 3 ≤ l.length)
    (h4 : previousEstimate l = 0) :
    revisionsPrimary env r = r ∧
    get_goog_revisions env = revisionsFallback env initRevisions := by
  have hp : ∀ r' : RevisionData, revisionsPrimary env r' = r' := by
    intro r'
    unfold revisionsPrimary
    simp [h1, h2, h3, h4, latestEstimate]
  exact ⟨hp r, by unfold get_goog_revisions; rw [hp initRevisions]⟩

/-- C9 witness: a concrete estimates payload whose third-newest EPS average
is 0 leaves the primary path inert and hands control to the fallback. -/
theorem C9_trend_division_guard_witness :
    previousEstimate [⟨3, 2⟩, ⟨2, 0⟩, ⟨1, 0⟩] = 0 ∧
    get_goog_revisions envPrevZero = revisionsFallback envPrevZero initRevisions := by
  have h4 : previousEstimate [(⟨3, 2⟩ : EstRecord), ⟨2, 0⟩, ⟨1, 0⟩] = 0 := by
    norm_num [previousEstimate, recentEstimates, sortByDateDesc, insertByDateDesc]
  exact ⟨h4,
    (C9_trend_division_guard envPrevZero [⟨3, 2⟩, ⟨2, 0⟩, ⟨1, 0⟩] initRevisions
      rfl rfl (by norm_num) h4).2⟩

/-- C10: if the guarded part of the top-level conviction computation fails
(the primary quote lookup raising, modelled as info = none), the
orchestration returns composite 0 with empty breakdown and empty enhanced
data instead of propagating the exception. -/
theorem C10_orchestration_catches (env : Env) (h : env.info = none) :
    calculate_goog_conviction_score env = (0, none, none) := by
  rw [calculate_goog_conviction_score, h]

/-- C10 witness: the all-adapters-down run returns 0 with empty breakdown. -/
theorem C10_orchestration_catches_witness :
    calculate_goog_conviction_score envDown = (0, none, none) :=
  C10_orchestration_catches envDown rfl

/-- C6: given at least 2 payload records with at least 2 usable annual
net-income points, the primary-path earnings CAGR equals
(latest/earliest) ^ (1/(n-1)) - 1 computed over the absolute net-income
magnitudes (the usable list is oldest first, built from absolute values of
the truthy netIncome fields of the reversed payload). -/
theorem C6_earnings_cagr_formula (env : Env) (l : List YearRecord)
    (h1 : env.fmp_api_accessible = true)
    (h2 : env.fmpIncome = some l)
    (h3 : 2 ≤ l.length)
    (h4 : 2 ≤ (usableEarnings l).length) :
    (earningsMethod1 env initEarnings).cagr =
      ((usableEarnings l).getLastD 0 / (usableEarnings l).headD 0)
        ^ ((1 : ℝ) / (((usableEarnings l).length : ℝ) - 1)) - 1 ∧
    (earningsMethod1 env initEarnings).quality = EQuality.HIGH ∧
    (earningsMethod1 env initEarnings).source = DataSource.FMP := by
  unfold earningsMethod1
  simp [h1, h2, h3, h4, earningsCagr]

/-- C6 witness: net incomes 100 then 121 one year apart give CAGR 0.21, and
100, 110, 121 over a two-year gap give (121/100) ^ (1/2) - 1 = 0.1 exactly. -/
theorem C6_earnings_cagr_witness :
    (earningsMethod1 envCagr2 initEarnings).cagr = 0.21 ∧
    (earningsMethod1 envCagr3 initEarnings).cagr = 0.1 := by
  have hu2 : usableEarnings [⟨some 121⟩, ⟨some 100⟩] = [100, 121] := by
    norm_num [usableEarnings, List.filterMap_cons]
  have hu3 : usableEarnings [⟨some 121⟩, ⟨some 110⟩, ⟨some 100⟩]
      = [100, 110, 121] := by
    norm_num [usableEarnings, List.filterMap_cons]
  have key : ((121 : ℝ) / 100) ^ ((1 : ℝ) / 2) = 11 / 10 := by
    rw [show ((121 : ℝ) / 100) = (11 / 10 : ℝ) ^ (2 : ℕ) by norm_num,
      ← Real.rpow_natCast (11 / 10 : ℝ) 2, ← Real.rpow_mul (by norm_num)]
    norm_num
  constructor
  · have h := (C6_earnings_cagr_formula envCagr2 [⟨some 121⟩, ⟨some 100⟩] rfl rfl
      (by norm_num) (by rw [hu2]; norm_num)).1
    rw [h, hu2]
    norm_num [List.getLastD, List.headD, Real.rpow_one]
  · have h := (C6_earnings_cagr_formula envCagr3 [⟨some 121⟩, ⟨some 110⟩, ⟨some 100⟩]
      rfl rfl (by norm_num) (by rw [hu3]; norm_num)).1
    rw [h, hu3]
    norm_num [List.getLastD, List.headD, key]

/-- C4 counterexample: the ex_dividend_date field of the dividend metrics is
read with a None default, so on a payload missing that key the Normalizer
stores null rather than the numeric 0 the claim asserts for every field. -/
theorem C4_ex_dividend_date_counterexample :
    (get_comprehensive_valuation_data emptyInfo).dividend_metrics.ex_dividend_date ≠ some 0 ∧
    (get_comprehensive_valuation_data emptyInfo).dividend_metrics.ex_dividend_date = none := by
  constructor <;>
    simp [get_comprehensive_valuation_data, valDividendMetrics, emptyInfo]

/-- C4 amended: after the Metrics Normalizer runs, every numeric field whose
backing keys are absent from the source payload holds the numeric value 0 -
with two exceptions: ex_dividend_date defaults to null and
recommendation_key defaults to the string none. -/
theorem C4_absent_fields_default_to_zero (info : Info) :
    (info.exDividendDate = none → (get_comprehensive_valuation_data info).dividend_metrics.ex_dividend_date = none) ∧
    (info.recommendationKey = none → (get_comprehensive_valuation_data info).quality_metrics.recommendation_key = "none") ∧
    (info.dividendYield = none → (get_comprehensive_valuation_data info).dividend_metrics.dividend_yield = 0) ∧
    (info.currentPrice = none → info.regularMarketPrice = none → (get_comprehensive_valuation_data info).price_metrics.current_price = 0) ∧
    (info.dayHigh = none → (get_comprehensive_valuation_data info).price_metrics.day_high = 0) ∧
    (info.dayLow = none → (get_comprehensive_valuation_data info).price_metrics.day_low = 0) ∧
    (info.fiftyTwoWeekHigh = none → (get_comprehensive_valuation_data info).price_metrics.week_52_high = 0) ∧
    (info.fiftyTwoWeekLow = none → (get_comprehensive_valuation_data info).price_metrics.week_52_low = 0) ∧
    (info.fiftyTwoWeekHigh = none → (get_comprehensive_valuation_data info).price_metrics.price_vs_52w_high = 0) ∧
    (info.fiftyTwoWeekLow = none → (get_comprehensive_valuation_data info).price_metrics.price_vs_52w_low = 0) ∧
    (info.averageVolume = none → (get_comprehensive_valuation_data info).price_metrics.avg_volume = 0) ∧
    (info.marketCap = none → (get_comprehensive_valuation_data info).price_metrics.market_cap = 0) ∧
    (info.enterpriseValue = none → (get_comprehensive_valuation_data info).price_metrics.enterprise_value = 0) ∧
    (info.targetMeanPrice = none → (get_comprehensive_valuation_data info).price_metrics.price_target_mean = 0) ∧
    (info.targetHighPrice = none → (get_comprehensive_valuation_data info).price_metrics.price_target_high = 0) ∧
    (info.targetLowPrice = none → (get_comprehensive_valuation_data info).price_metrics.price_target_low = 0) ∧
    (info.trailingPE = none → (get_comprehensive_valuation_data info).ratio_metrics.pe_ratio = 0) ∧
    (info.forwardPE = none → (get_comprehensive_valuation_data info).ratio_metrics.forward_pe = 0) ∧
    (info.pegRatio = none → (get_comprehensive_valuation_data info).ratio_metrics.peg_ratio = 0) ∧
    (info.priceToBook = none → (get_comprehensive_valuation_data info).ratio_metrics.price_to_book = 0) ∧
    (info.priceToSalesTrailing12Months = none → (get_comprehensive_valuation_data info).ratio_metrics.price_to_sales = 0) ∧
    (info.enterpriseToRevenue = none → (get_comprehensive_valuation_data info).ratio_metrics.ev_to_revenue = 0) ∧
    (info.enterpriseToEbitda = none → (get_comprehensive_valuation_data info).ratio_metrics.ev_to_ebitda = 0) ∧
    (info.priceToCashflow = none → (get_comprehensive_valuation_data info).ratio_metrics.price_to_cash_flow = 0) ∧
    (info.bookValue = none → (get_comprehensive_valuation_data info).ratio_metrics.book_value = 0) ∧
    (info.priceToBook = none → (get_comprehensive_valuation_data info).ratio_metrics.price_to_book_ratio = 0) ∧
    (info.revenueGrowth = none → (get_comprehensive_valuation_data info).growth_metrics.revenue_growth = 0) ∧
    (info.earningsGrowth = none → (get_comprehensive_valuation_data info).growth_metrics.earnings_growth = 0) ∧
    (info.earningsQuarterlyGrowth = none → (get_comprehensive_valuation_data info).growth_metrics.earnings_quarterly_growth = 0) ∧
    (info.revenueQuarterlyGrowth = none → (get_comprehensive_valuation_data info).growth_metrics.revenue_quarterly_growth = 0) ∧
    ((get_comprehensive_valuation_data info).growth_metrics.book_value_growth = 0) ∧
    (info.forwardEps = none → (get_comprehensive_valuation_data info).growth_metrics.eps_forward = 0) ∧
    (info.trailingEps = none → (get_comprehensive_valuation_data info).growth_metrics.eps_trailing = 0) ∧
    (info.profitMargins = none → (get_comprehensive_valuation_data info).profitability_metrics.profit_margins = 0) ∧
    (info.operatingMargins = none → (get_comprehensive_valuation_data info).profitability_metrics.operating_margins = 0) ∧
    (info.grossMargins = none → (get_comprehensive_valuation_data info).profitability_metrics.gross_margins = 0) ∧
    (info.ebitdaMargins = none → (get_comprehensive_valuation_data info).profitability_metrics.ebitda_margins = 0) ∧
    (info.returnOnEquity = none → (get_comprehensive_valuation_data info).profitability_metrics.roe = 0) ∧
    (info.returnOnAssets = none → (get_comprehensive_valuation_data info).profitability_metrics.roa = 0) ∧
    ((get_comprehensive_valuation_data info).profitability_metrics.roic = 0) ∧
    (info.netIncomeToCommon = none → (get_comprehensive_valuation_data info).profitability_metrics.net_income_to_common = 0) ∧
    (info.trailingEps = none → (get_comprehensive_valuation_data info).profitability_metrics.diluted_eps = 0) ∧
    ((get_comprehensive_valuation_data info).efficiency_metrics.asset_turnover = 0) ∧
    ((get_comprehensive_valuation_data info).efficiency_metrics.inventory_turnover = 0) ∧
    ((get_comprehensive_valuation_data info).efficiency_metrics.receivables_turnover = 0) ∧
    (info.totalCash = none → info.totalDebt = none → (get_comprehensive_valuation_data info).efficiency_metrics.working_capital = 0) ∧
    (info.operatingCashflow = none → (get_comprehensive_valuation_data info).efficiency_metrics.operating_cash_flow = 0) ∧
    (info.freeCashflow = none → (get_comprehensive_valuation_data info).efficiency_metrics.free_cash_flow = 0) ∧
    ((get_comprehensive_valuation_data info).efficiency_metrics.capex_to_revenue = 0) ∧
    (info.totalDebt = none → (get_comprehensive_valuation_data info).leverage_metrics.total_debt = 0) ∧
    (info.totalCash = none → (get_comprehensive_valuation_data info).leverage_metrics.total_cash = 0) ∧
    (info.totalDebt = none → info.totalCash = none → (get_comprehensive_valuation_data info).leverage_metrics.net_debt = 0) ∧
    (info.debtToEquity = none → (get_comprehensive_valuation_data info).leverage_metrics.debt_to_equity = 0) ∧
    ((get_comprehensive_valuation_data info).leverage_metrics.debt_to_assets = 0) ∧
    ((get_comprehensive_valuation_data info).leverage_metrics.interest_coverage = 0) ∧
    ((get_comprehensive_valuation_data info).leverage_metrics.debt_to_ebitda = 0) ∧
    (info.totalCashPerShare = none → (get_comprehensive_valuation_data info).leverage_metrics.cash_per_share = 0) ∧
    (info.currentRatio = none → (get_comprehensive_valuation_data info).liquidity_metrics.current_ratio = 0) ∧
    (info.quickRatio = none → (get_comprehensive_valuation_data info).liquidity_metrics.quick_ratio = 0) ∧
    ((get_comprehensive_valuation_data info).liquidity_metrics.cash_ratio = 0) ∧
    ((get_comprehensive_valuation_data info).liquidity_metrics.operating_cash_flow_ratio = 0) ∧
    ((get_comprehensive_valuation_data info).liquidity_metrics.working_capital_ratio = 0) ∧
    (info.beta = none → (get_comprehensive_valuation_data info).market_metrics.beta = 0) ∧
    (info.sharesOutstanding = none → (get_comprehensive_valuation_data info).market_metrics.shares_outstanding = 0) ∧
    (info.floatShares = none → (get_comprehensive_valuation_data info).market_metrics.shares_float = 0) ∧
    (info.sharesShort = none → (get_comprehensive_valuation_data info).market_metrics.shares_short = 0) ∧
    (info.shortRatio = none → (get_comprehensive_valuation_data info).market_metrics.short_ratio = 0) ∧
    (info.shortPercentOfFloat = none → (get_comprehensive_valuation_data info).market_metrics.short_percent_float = 0) ∧
    (info.heldPercentInstitutions = none → (get_comprehensive_valuation_data info).market_metrics.institutional_percent = 0) ∧
    (info.heldPercentInsiders = none → (get_comprehensive_valuation_data info).market_metrics.insider_percent = 0) ∧
    (info.dividendRate = none → (get_comprehensive_valuation_data info).dividend_metrics.dividend_rate = 0) ∧
    (info.payoutRatio = none → (get_comprehensive_valuation_data info).dividend_metrics.payout_ratio = 0) ∧
    (info.lastDividendValue = none → (get_comprehensive_valuation_data info).dividend_metrics.last_dividend_value = 0) ∧
    (info.fiveYearAvgDividendYield = none → (get_comprehensive_valuation_data info).dividend_metrics.five_year_avg_dividend_yield = 0) ∧
    (info.recommendationMean = none → (get_comprehensive_valuation_data info).quality_metrics.recommendation_mean = 0) ∧
    (info.numberOfAnalystOpinions = none → (get_comprehensive_valuation_data info).quality_metrics.number_of_analyst_opinions = 0) ∧
    (info.targetMeanPrice = none → info.currentPrice = none → info.regularMarketPrice = none → (get_comprehensive_valuation_data info).quality_metrics.analyst_target_upside = 0) ∧
    ((get_comprehensive_valuation_data info).quality_metrics.earnings_estimate_current_quarter = 0) ∧
    ((get_comprehensive_valuation_data info).quality_metrics.earnings_estimate_next_quarter = 0) ∧
    ((get_comprehensive_valuation_data info).quality_metrics.earnings_estimate_current_year = 0) ∧
    ((get_comprehensive_valuation_data info).quality_metrics.earnings_estimate_next_year = 0) := by
  refine ⟨?_, ?_, ?_, ?_, ?_, ?_, ?_, ?_, ?_, ?_, ?_, ?_, ?_, ?_, ?_, ?_, ?_, ?_, ?_, ?_, ?_, ?_, ?_, ?_, ?_, ?_, ?_, ?_, ?_, ?_, ?_, ?_, ?_, ?_, ?_, ?_, ?_, ?_, ?_, ?_, ?_, ?_, ?_, ?_, ?_, ?_, ?_, ?_, ?_, ?_, ?_, ?_, ?_, ?_, ?_, ?_, ?_, ?_, ?_, ?_, ?_, ?_, ?_, ?_, ?_, ?_, ?_, ?_, ?_, ?_, ?_, ?_, ?_, ?_, ?_, ?_, ?_, ?_, ?_, ?_, ?_⟩ <;> intros <;>
    simp_all [get_comprehensive_valuation_data, valPriceMetrics, valRatioMetrics,
      valGrowthMetrics, valProfitabilityMetrics, valEfficiencyMetrics,
      valLeverageMetrics, valLiquidityMetrics, valMarketMetrics,
      valDividendMetrics, valQualityMetrics, currentPriceOf]

/-- C4 witness: on the empty payload the first conjuncts instantiate:
ex_dividend_date is null, recommendation_key is the string none, and
dividend_yield is 0. -/
theorem C4_absent_fields_witness :
    (get_comprehensive_valuation_data emptyInfo).dividend_metrics.ex_dividend_date = none ∧
    (get_comprehensive_valuation_data emptyInfo).quality_metrics.recommendation_key = "none" ∧
    (get_comprehensive_valuation_data emptyInfo).dividend_metrics.dividend_yield = 0 :=
  ⟨(C4_absent_fields_default_to_zero emptyInfo).1 rfl,
    (C4_absent_fields_default_to_zero emptyInfo).2.1 rfl,
    (C4_absent_fields_default_to_zero emptyInfo).2.2.1 rfl⟩
